import Mathlib

/-!
# Verification of the parent-agent worker core

Shallow embedding of the worker supervisor, the WhatsApp connection worker,
the GreenAPI delivery queue and the alert sender, translated from the
TypeScript sources:

* `apps/worker/src/services/worker-manager.ts` (WorkerManager, WhatsAppWorker)
* `apps/worker/src/services/message-processor.ts` (MessageProcessor)
* `apps/worker/src/services/alert-sender.ts` (AlertSender)
* the GreenAPI sender service (`GreenAPISender`) and its hebrew-calendar
  utilities (`isShabbat`, `getNextMotzaeiShabbat`)
* `supabase/migrations/20260117_worker_stability.sql` (unique constraint on
  `wa_raw_messages`)

Time is modelled in milliseconds since a reference Sunday 00:00 (Israel time,
the single timezone of the model).  External collaborators (database reads,
the AI classifier, the outbound transport) are passed in as explicit
parameters or outcome oracles, so every function below is a pure translation
of the corresponding control flow in the source.
-/

namespace ParentAgent

/-! ## Time model (hebrew-calendar.ts)

A timestamp is in milliseconds; day 0 is a Sunday, matching JavaScript
`Date.getDay()` where Sunday = 0, Friday = 5, Saturday = 6. -/

def msPerHour : Nat := 3600000

def msPerDay : Nat := 86400000

/-- `Date.getDay()` of a timestamp: 0 = Sunday … 6 = Saturday. -/
def dayOfWeek (t : Nat) : Nat := t / msPerDay % 7

/-- `Date.getHours()` of a timestamp. -/
def hourOf (t : Nat) : Nat := t % msPerDay / msPerHour

/-- Midnight of the day containing `t`. -/
def startOfDay (t : Nat) : Nat := t - t % msPerDay

/-- `isShabbat` from hebrew-calendar.ts: Saturday before 20:00, or Friday
from 18:00 on. -/
def isShabbat (t : Nat) : Bool :=
  decide ((dayOfWeek t = 6 ∧ hourOf t < 20) ∨ (dayOfWeek t = 5 ∧ 18 ≤ hourOf t))

/-- `isHoliday` from hebrew-calendar.ts: the holiday list is empty and the
function returns `false` unconditionally. -/
def isHoliday (_t : Nat) : Bool := false

/-- `isShabbatOrHoliday` from hebrew-calendar.ts. -/
def isShabbatOrHoliday (t : Nat) : Bool := isShabbat t || isHoliday t

/-- `getNextMotzaeiShabbat` from hebrew-calendar.ts: the next Saturday at
20:30 (`daysUntilSaturday = (6 - day + 7) % 7`, bumped a week when it is
already Saturday 20:00 or later, then `setHours(20, 30, 0, 0)`). -/
def getNextMotzaeiShabbat (t : Nat) : Nat :=
  let day := dayOfWeek t
  let d0 := (6 - day + 7) % 7
  let d := if d0 = 0 ∧ 20 ≤ hourOf t then 7 else d0
  startOfDay t + d * msPerDay + (20 * 60 + 30) * 60000

/-! ## Connection worker state machine (worker-manager.ts)

`WhatsAppWorker` keeps `status`, `lastHeartbeat`, `reconnectAttempts` and
`isReconnecting` as in-memory fields; `WorkerManager.healthCheck` reads the
first two through `getStatus()` / `getLastHeartbeat()`. -/

inductive SessionStatus where
  | disconnected
  | connecting
  | qr_required
  | connected
  | unstable
  | manual_reauth_required
deriving DecidableEq, Repr

structure WorkerState where
  status : SessionStatus
  lastHeartbeat : Option Nat
  reconnectAttempts : Nat
  isReconnecting : Bool
deriving DecidableEq, Repr

def MAX_RECONNECT_ATTEMPTS : Nat := 5

def RECONNECT_BASE_DELAY : Nat := 5000

/-- Backoff delay computed inside `WhatsAppWorker.reconnect` for the given
attempt number: `RECONNECT_BASE_DELAY * Math.pow(2, this.reconnectAttempts - 1)`. -/
def reconnectDelay (attempt : Nat) : Nat :=
  RECONNECT_BASE_DELAY * 2 ^ (attempt - 1)

/-- Outcome of the `stop(); start();` restart sequence inside `reconnect`
(success, or the thrown error caught by the `catch` block). -/
inductive RestartOutcome where
  | success
  | failure
deriving DecidableEq, Repr

/-- `WhatsAppWorker.reconnect`: guarded by `isReconnecting`; increments the
attempt counter; past `MAX_RECONNECT_ATTEMPTS` it moves the session to
`manual_reauth_required` without restarting; otherwise it waits the backoff
delay, runs `stop()` (which persists status `disconnected`) then `start()`,
and resets the counter to zero on success. -/
def reconnect (w : WorkerState) (outcome : RestartOutcome) : WorkerState :=
  if w.isReconnecting then w
  else
    let a := w.reconnectAttempts + 1
    if MAX_RECONNECT_ATTEMPTS < a then
      { w with status := .manual_reauth_required, reconnectAttempts := a,
               isReconnecting := false }
    else
      match outcome with
      | .success =>
          { w with status := .disconnected, reconnectAttempts := 0,
                   isReconnecting := false }
      | .failure =>
          { w with status := .disconnected, reconnectAttempts := a,
                   isReconnecting := false }

/-- Stale-heartbeat threshold in `WorkerManager.healthCheck`:
`now - lastHeartbeat > 10 * 60 * 1000`. -/
def STALE_THRESHOLD : Nat := 10 * 60 * 1000

/-- The condition under which `WorkerManager.healthCheck` calls
`worker.reconnect()`: reported status is `unstable` and the heartbeat is
present and older than ten minutes. -/
def healthCheckTriggersReconnect (now : Nat) (w : WorkerState) : Bool :=
  match w.lastHeartbeat with
  | some h => decide (w.status = .unstable ∧ STALE_THRESHOLD < now - h)
  | none => false

/-- One worker's share of `WorkerManager.healthCheck`: reconnect exactly when
the trigger condition holds, otherwise leave the worker untouched. -/
def healthCheckStep (now : Nat) (w : WorkerState) (outcome : RestartOutcome) :
    WorkerState :=
  if healthCheckTriggersReconnect now w then reconnect w outcome else w

/-- `n` consecutive failing reconnect invocations. -/
def reconnectFailN : Nat → WorkerState → WorkerState
  | 0, w => w
  | n + 1, w => reconnectFailN n (reconnect w .failure)

/-! ## GreenAPI delivery queue (GreenAPISender)

The outbound transport (`sendMessage`, a `fetch` against the GreenAPI HTTP
endpoint) is modelled by an outcome oracle mapping the attempt number to
success/failure; database writes are collected in the returned trace. -/

def MAX_RETRIES : Nat := 3

def RETRY_DELAY_MS : Nat := 5000

/-- One `message_queue` row. -/
structure QueueRow where
  userId : String
  messageType : String
  content : String
  scheduledFor : Nat
  status : String
  retryCount : Nat
  sentAt : Option Nat
  relatedItemId : Option String
deriving DecidableEq, Repr

/-- `GreenAPISender.queueMessage`: inserts a row whose `scheduled_for` is the
next Motzaei Shabbat during a blackout and `now` otherwise; `retry_count`
takes the column default 0. -/
def queueMessage (now : Nat) (userId messageType content : String)
    (relatedItemId : Option String) (status : String) : QueueRow :=
  { userId := userId, messageType := messageType, content := content,
    scheduledFor := if isShabbatOrHoliday now then getNextMotzaeiShabbat now else now,
    status := status, retryCount := 0, sentAt := none,
    relatedItemId := relatedItemId }

/-- `GreenAPISender.logMessageSent`: the terminal `sent` journal row written
after a successful immediate delivery. -/
def logMessageSent (now : Nat) (userId messageType content : String)
    (relatedItemId : Option String) : QueueRow :=
  { userId := userId, messageType := messageType, content := content,
    scheduledFor := now, status := "sent", retryCount := 0,
    sentAt := some now, relatedItemId := relatedItemId }

/-- The retry loop of `GreenAPISender.sendWithRetry`, for attempts numbered
from `attempt` with `rem` attempts remaining.  Returns the number of
transport calls made, the list of inter-attempt delays slept
(`RETRY_DELAY_MS * attempt`, only when another attempt follows), and whether
some attempt succeeded. -/
def runAttempts (outcome : Nat → Bool) : Nat → Nat → Nat × List Nat × Bool
  | _, 0 => (0, [], false)
  | attempt, rem + 1 =>
    if outcome attempt then (1, [], true)
    else if rem = 0 then (1, [], false)
    else
      let r := runAttempts outcome (attempt + 1) rem
      (r.1 + 1, RETRY_DELAY_MS * attempt :: r.2.1, r.2.2)

/-- Observable effects of one send request. -/
structure SendTrace where
  success : Bool
  transportCalls : Nat
  delays : List Nat
  journal : List QueueRow
  webNotifications : Nat
deriving DecidableEq, Repr

def emptyTrace (b : Bool) : SendTrace :=
  { success := b, transportCalls := 0, delays := [], journal := [],
    webNotifications := 0 }

/-- `GreenAPISender.sendWithRetry`: up to `MAX_RETRIES` transport attempts
with delay `RETRY_DELAY_MS * attempt` between consecutive attempts; success
logs a `sent` journal row; total failure writes a `failed` queue row and one
web notification (`createWebNotification`). -/
def sendWithRetry (now : Nat) (outcome : Nat → Bool)
    (userId messageType content : String) (relatedItemId : Option String) :
    SendTrace :=
  let r := runAttempts outcome 1 MAX_RETRIES
  if r.2.2 then
    { success := true, transportCalls := r.1, delays := r.2.1,
      journal := [logMessageSent now userId messageType content relatedItemId],
      webNotifications := 0 }
  else
    { success := false, transportCalls := r.1, delays := r.2.1,
      journal := [queueMessage now userId messageType content relatedItemId "failed"],
      webNotifications := 1 }

/-- A `users` row as read by the sender (`phone`, `wa_opt_in`). -/
structure UserRow where
  phone : Option String
  waOptIn : Bool
deriving DecidableEq, Repr

/-- `GreenAPISender.sendImmediateAlert`: during a blackout the formatted
alert is queued `pending` for Motzaei Shabbat and no transport call happens;
otherwise a missing phone or a cleared opt-in aborts, and an eligible user
goes through `sendWithRetry`.  `content` stands for the output of
`formatAlertMessage`. -/
def sendImmediateAlert (now : Nat) (user : Option UserRow)
    (outcome : Nat → Bool) (userId content itemId : String) : SendTrace :=
  if isShabbatOrHoliday now then
    { success := true, transportCalls := 0, delays := [],
      journal := [queueMessage now userId "alert" content (some itemId) "pending"],
      webNotifications := 0 }
  else
    match user with
    | some u =>
      match u.phone, u.waOptIn with
      | some _, true => sendWithRetry now outcome userId "alert" content (some itemId)
      | _, _ => emptyTrace false
    | none => emptyTrace false

/-- `GreenAPISender.sendDailyDigest`: during a blackout the generated digest
content (if any) is queued `pending`; with no content nothing is written;
otherwise the user gate and `sendWithRetry` apply.  `digestContent` stands
for the result of `generateDigestContent` (null when the user has no groups
or no items today). -/
def sendDailyDigest (now : Nat) (digestContent : Option String)
    (user : Option UserRow) (outcome : Nat → Bool) (userId : String) :
    SendTrace :=
  if isShabbatOrHoliday now then
    match digestContent with
    | some c =>
      { success := true, transportCalls := 0, delays := [],
        journal := [queueMessage now userId "digest" c none "pending"],
        webNotifications := 0 }
    | none => emptyTrace true
  else
    match user with
    | some u =>
      match u.phone, u.waOptIn with
      | some _, true =>
        match digestContent with
        | some c => sendWithRetry now outcome userId "digest" c none
        | none => emptyTrace true
      | _, _ => emptyTrace false
    | none => emptyTrace false

/-- Selection predicate of `processQueue`'s query:
`status = 'pending' AND scheduled_for <= now`. -/
def entrySelected (now : Nat) (e : QueueRow) : Bool :=
  decide (e.status = "pending" ∧ e.scheduledFor ≤ now)

def QUEUE_BATCH_LIMIT : Nat := 50

/-- The batch `processQueue` reads: pending, due, limited to 50. -/
def selectBatch (now : Nat) (q : List QueueRow) : List QueueRow :=
  (q.filter (entrySelected now)).take QUEUE_BATCH_LIMIT

/-- Per-entry body of the `processQueue` loop.  `userOk` is the
phone-and-opt-in gate; `sendOk` the transport outcome.  Returns the updated
row, whether it counted as sent, and whether a web notification was raised. -/
def processEntry (now : Nat) (userOk sendOk : Bool) (e : QueueRow) :
    QueueRow × Bool × Bool :=
  if ¬ userOk then
    ({ e with status := "failed" }, false, false)
  else if sendOk then
    ({ e with status := "sent", sentAt := some now }, true, false)
  else
    let rc := e.retryCount + 1
    if MAX_RETRIES ≤ rc then
      ({ e with status := "failed", retryCount := rc }, false, true)
    else
      ({ e with status := "pending", retryCount := rc,
                scheduledFor := now + RETRY_DELAY_MS * rc }, false, false)

/-- The `processQueue` loop over the whole table: an entry is processed when
it matches the selection predicate and the batch budget is not exhausted;
every other entry is left untouched.  Returns the updated table, the sent
count, and the number of web notifications raised. -/
def processQueueGo (now : Nat) (userOk sendOk : QueueRow → Bool) :
    List QueueRow → Nat → List QueueRow × Nat × Nat
  | [], _ => ([], 0, 0)
  | e :: rest, budget =>
    if entrySelected now e = true ∧ budget ≠ 0 then
      let p := processEntry now (userOk e) (sendOk e) e
      let r := processQueueGo now userOk sendOk rest (budget - 1)
      (p.1 :: r.1, (if p.2.1 then 1 else 0) + r.2.1,
       (if p.2.2 then 1 else 0) + r.2.2)
    else
      let r := processQueueGo now userOk sendOk rest budget
      (e :: r.1, r.2.1, r.2.2)

/-- `GreenAPISender.processQueue`: skipped entirely during a blackout,
otherwise processes the selected batch. -/
def processQueue (now : Nat) (userOk sendOk : QueueRow → Bool)
    (q : List QueueRow) : List QueueRow × Nat × Nat :=
  if isShabbatOrHoliday now then (q, 0, 0)
  else processQueueGo now userOk sendOk q QUEUE_BATCH_LIMIT

/-- Iterated scheduler-driven queue-drain passes; pass number `k` runs at
time `nows k` with user gate `userOks k` and transport outcome `sendOks k`. -/
def processQueuePasses (nows : Nat → Nat)
    (userOks sendOks : Nat → QueueRow → Bool) :
    Nat → List QueueRow → List QueueRow
  | 0, q => q
  | k + 1, q =>
    processQueuePasses (fun i => nows (i + 1)) (fun i => userOks (i + 1))
      (fun i => sendOks (i + 1)) k
      (processQueue (nows 0) (userOks 0) (sendOks 0) q).1

/-! ## Inbound message ingestion
(`WhatsAppWorker.handleMessage`, `WhatsAppWorker.scanGroupHistory`) -/

/-- One list is a prefix of another. -/
def listPrefix : List Char → List Char → Bool
  | [], _ => true
  | _ :: _, [] => false
  | a :: as, b :: bs => a == b && listPrefix as bs

/-- One list occurs inside another. -/
def listInfix (pat : List Char) : List Char → Bool
  | [] => pat.isEmpty
  | c :: rest => listPrefix pat (c :: rest) || listInfix pat rest

/-- JavaScript `s.includes(pat)`. -/
def includesStr (s pat : String) : Bool := listInfix pat.data s.data

/-- JavaScript `s.trim()`: strip whitespace from both ends. -/
def trimList (l : List Char) : List Char :=
  ((l.dropWhile Char.isWhitespace).reverse.dropWhile Char.isWhitespace).reverse

def strTrim (s : String) : String := String.mk (trimList s.data)

/-- The fields of a whatsapp-web.js `Message` read by the worker. -/
structure WAMessage where
  fromChat : String
  author : Option String
  body : String
  hasMedia : Bool
  mediaType : String
  fromMe : Bool
  msgId : String
  timestamp : Nat
deriving DecidableEq, Repr

/-- A `groups` row as read by the worker (`id`, `child_id`). -/
structure GroupRow where
  id : String
  childId : Option String
deriving DecidableEq, Repr

/-- The payload inserted into `wa_raw_messages`. -/
structure RawInsert where
  groupId : String
  waMessageId : String
  content : String
  sender : String
  mediaType : Option String
deriving DecidableEq, Repr

/-- The `mediaTypes` placeholder map in `handleMessage` (includes `ptt`). -/
def liveMediaLabel (t : String) : String :=
  if t = "image" then "[תמונה]"
  else if t = "video" then "[סרטון]"
  else if t = "audio" then "[הודעה קולית]"
  else if t = "ptt" then "[הודעה קולית]"
  else if t = "document" then "[מסמך]"
  else if t = "sticker" then "[מדבקה]"
  else "[מדיה: " ++ t ++ "]"

/-- `WhatsAppWorker.handleMessage` up to the `wa_raw_messages` insert:
requires a group chat (`from` contains `@g.us`) and an active registered
group row; media without caption gets a placeholder body; empty or
whitespace-only content is dropped.  Returns the row it inserts, or `none`
when the message is discarded.  `group` is the result of the `groups`
lookup (active groups only). -/
def handleMessage (m : WAMessage) (group : Option GroupRow) : Option RawInsert :=
  if includesStr m.fromChat "@g.us" = false then none
  else
    match group with
    | none => none
    | some g =>
      let content := if m.hasMedia ∧ m.body = "" then liveMediaLabel m.mediaType
                     else m.body
      if content = "" ∨ strTrim content = "" then none
      else some { groupId := g.id, waMessageId := m.msgId, content := content,
                  sender := m.author.getD m.fromChat,
                  mediaType := if m.hasMedia then some m.mediaType else none }

/-- The `mediaLabels` placeholder map in `scanGroupHistory` (no `ptt`). -/
def scanMediaLabel (t : String) : String :=
  if t = "image" then "[תמונה]"
  else if t = "video" then "[סרטון]"
  else if t = "audio" then "[הודעה קולית]"
  else if t = "document" then "[מסמך]"
  else if t = "sticker" then "[מדבקה]"
  else "[מדיה: " ++ t ++ "]"

/-- The per-message body of the `scanGroupHistory` loop: self-authored
messages are skipped, already-persisted (group, message-id) pairs are
skipped, media may fall back to its caption (`_data?.caption`) or a
placeholder, and contentless messages are dropped.  Returns the row the
scan inserts, or `none`. -/
def scanMessageAction (m : WAMessage) (existsInDb : Bool) (caption : String)
    (g : GroupRow) : Option RawInsert :=
  if m.fromMe then none
  else if existsInDb then none
  else
    let content := if m.body = "" ∧ m.hasMedia then
                     (if caption = "" then scanMediaLabel m.mediaType else caption)
                   else m.body
    if content = "" then none
    else some { groupId := g.id, waMessageId := m.msgId, content := content,
                sender := m.author.getD m.fromChat,
                mediaType := if m.hasMedia then some m.mediaType else none }

/-! ## The `wa_raw_messages` store under the unique constraint
`wa_raw_messages_group_wa_message_unique UNIQUE (group_id, wa_message_id)`
added by migration 20260117_worker_stability.sql. -/

def rawKeyMatches (g mid : String) (r : RawInsert) : Bool :=
  decide (r.groupId = g ∧ r.waMessageId = mid)

/-- Number of persisted rows for one (group, external-message-id) key. -/
def rawKeyCount (db : List RawInsert) (g mid : String) : Nat :=
  (db.filter (rawKeyMatches g mid)).length

def hasKey (db : List RawInsert) (g mid : String) : Bool :=
  db.any (rawKeyMatches g mid)

/-- An `INSERT` into `wa_raw_messages`: the unique constraint rejects a row
whose (group_id, wa_message_id) already exists, leaving the table unchanged
(the worker sees the error and moves on). -/
def insertRaw (db : List RawInsert) (r : RawInsert) : List RawInsert × Bool :=
  if hasKey db r.groupId r.waMessageId then (db, false) else (db ++ [r], true)

/-! ## Message processor (message-processor.ts) -/

/-- The classifier verdict (`MessageClassification`). -/
structure Classification where
  category : String
  urgency : Nat
  actionRequired : Bool
  summary : String
  childRelevant : Bool
  sendImmediateAlert : Bool
deriving DecidableEq, Repr

def IMMEDIATE_ALERT_THRESHOLD : Nat := 6

/-- Observable effects of `MessageProcessor.processMessage` on one message. -/
structure ProcessResult where
  processed : Bool
  itemSaved : Bool
  alertCreated : Bool
  alertSendAttempted : Bool
deriving DecidableEq, Repr

/-- `MessageProcessor.processMessage`: short messages (< 5 chars) are marked
processed and skipped; a classifier call or JSON-parse failure is caught by
the surrounding `try`/`catch`, which deliberately does not mark the message
processed; low-urgency noise is marked processed and skipped; otherwise the
extracted item is inserted (a failed insert does not throw — supabase
returns an error object, so `savedItem` is simply null), the immediate-alert
branch runs when `send_immediate_alert && urgency >= 6` (the `alerts` row
needs the group lookup to succeed, the WhatsApp send needs `savedItem`), and
the message is marked processed.  `classify` is the classifier boundary
(`.error` = thrown exception), `insertOk` the `extracted_items` insert
outcome, `groupExists` the `groups` lookup inside `createAlert`. -/
def processMessage (content : String) (classify : Except Unit Classification)
    (insertOk : Bool) (groupExists : Bool) : ProcessResult :=
  if content.length < 5 then
    { processed := true, itemSaved := false, alertCreated := false,
      alertSendAttempted := false }
  else
    match classify with
    | .error _ =>
      { processed := false, itemSaved := false, alertCreated := false,
        alertSendAttempted := false }
    | .ok c =>
      if c.category = "noise" ∧ c.urgency < 3 then
        { processed := true, itemSaved := false, alertCreated := false,
          alertSendAttempted := false }
      else
        let alertBranch :=
          c.sendImmediateAlert && decide (IMMEDIATE_ALERT_THRESHOLD ≤ c.urgency)
        { processed := true, itemSaved := insertOk,
          alertCreated := alertBranch && groupExists,
          alertSendAttempted := alertBranch && insertOk }

/-! ## Alert sender (alert-sender.ts) and quiet hours (shared/index.ts) -/

/-- Minutes-of-day of a timestamp (`getHours() * 60 + getMinutes()`). -/
def minutesOfDay (t : Nat) : Nat := t % msPerDay / 60000

/-- `s.split(c)` over the character list. -/
def splitOnChar (c : Char) : List Char → List (List Char)
  | [] => [[]]
  | x :: xs =>
    let r := splitOnChar c xs
    if x == c then [] :: r
    else
      match r with
      | [] => [[x]]
      | h :: t => (x :: h) :: t

/-- A non-empty all-digit chunk read as a number (`Number("07") = 7`). -/
def digitsToNat? (l : List Char) : Option Nat :=
  if l.isEmpty then none
  else
    l.foldl
      (fun acc c =>
        match acc with
        | none => none
        | some n => if c.isDigit then some (n * 10 + (c.toNat - 48)) else none)
      (some 0)

/-- `"HH:MM".split(':').map(Number)` turned into minutes of day. -/
def parseMinutes (s : String) : Nat :=
  match (splitOnChar ':' s.data).map digitsToNat? with
  | [some h, some m] => h * 60 + m
  | _ => 0

/-- `isWithinQuietHours` from packages/shared: overnight ranges wrap around
midnight. -/
def isWithinQuietHours (nowMin : Nat) (startStr endStr : String) : Bool :=
  let s := parseMinutes startStr
  let e := parseMinutes endStr
  if e < s then decide (s ≤ nowMin ∨ nowMin < e)
  else decide (s ≤ nowMin ∧ nowMin < e)

structure NotificationSettings where
  immediateAlertsEnabled : Bool
  quietHoursStart : String
  quietHoursEnd : String
deriving DecidableEq, Repr

/-- The joined `users` record read by `processPendingAlerts`. -/
structure AlertUser where
  phone : Option String
  settings : Option NotificationSettings
deriving DecidableEq, Repr

/-- An `alerts` row. -/
structure AlertRow where
  userId : String
  content : String
  sent : Bool
  sentAt : Option Nat
deriving DecidableEq, Repr

/-- The loop body of `AlertSender.processPendingAlerts` for one alert:
no phone → skipped untouched; alerts disabled (or settings missing,
`!settings?.immediate_alerts_enabled`) → marked sent with a timestamp and no
transport call; quiet hours → skipped untouched; otherwise one transport
call, marked sent only on success.  Returns the updated row and the number
of transport calls made. -/
def processAlert (now : Nat) (u : AlertUser) (sendOk : Bool) (a : AlertRow) :
    AlertRow × Nat :=
  match u.phone with
  | none => (a, 0)
  | some _ =>
    match u.settings with
    | none => ({ a with sent := true, sentAt := some now }, 0)
    | some s =>
      if s.immediateAlertsEnabled = false then
        ({ a with sent := true, sentAt := some now }, 0)
      else if isWithinQuietHours (minutesOfDay now) s.quietHoursStart
          s.quietHoursEnd then
        (a, 0)
      else if sendOk then
        ({ a with sent := true, sentAt := some now }, 1)
      else (a, 1)

def ALERT_BATCH_LIMIT : Nat := 10

/-- `AlertSender.processPendingAlerts` over the whole `alerts` table:
unsent alerts are processed oldest-first up to the batch limit of 10;
everything else is untouched.  Returns the updated table and the total
number of transport calls. -/
def processPendingAlertsGo (now : Nat) (userOf : String → AlertUser)
    (sendOk : AlertRow → Bool) : List AlertRow → Nat → List AlertRow × Nat
  | [], _ => ([], 0)
  | a :: rest, budget =>
    if a.sent = false ∧ budget ≠ 0 then
      let p := processAlert now (userOf a.userId) (sendOk a) a
      let r := processPendingAlertsGo now userOf sendOk rest (budget - 1)
      (p.1 :: r.1, p.2 + r.2)
    else
      let r := processPendingAlertsGo now userOf sendOk rest budget
      (a :: r.1, r.2)

def processPendingAlerts (now : Nat) (userOf : String → AlertUser)
    (sendOk : AlertRow → Bool) (alerts : List AlertRow) : List AlertRow × Nat :=
  processPendingAlertsGo now userOf sendOk alerts ALERT_BATCH_LIMIT

/-! ## Helper lemmas -/

/-- During Shabbat, the scheduled Motzaei-Shabbat instant is strictly in the
future and outside the blackout window (hence past the end of the window
containing `t`, since blackout times form one contiguous interval around
any blackout instant). -/
theorem motzaei_after_blackout (t : Nat) (h : isShabbat t = true) :
    t < getNextMotzaeiShabbat t ∧ isShabbat (getNextMotzaeiShabbat t) = false := by
  simp only [isShabbat, dayOfWeek, hourOf, decide_eq_true_eq, msPerDay, msPerHour] at h
  simp only [isShabbat, getNextMotzaeiShabbat, dayOfWeek, hourOf, startOfDay,
    msPerDay, msPerHour]
  rcases h with ⟨hday, hhour⟩ | ⟨hday, hhour⟩
  · -- Saturday before 20:00: schedule today at 20:30
    have hd0 : (6 - t / 86400000 % 7 + 7) % 7 = 0 := by omega
    rw [hd0, if_neg (by omega : ¬ ((0 : Nat) = 0 ∧ 20 ≤ t % 86400000 / 3600000))]
    refine ⟨by omega, ?_⟩
    have hday6 : (t - t % 86400000 + 0 * 86400000 + (20 * 60 + 30) * 60000)
        / 86400000 % 7 = 6 := by omega
    have hhour20 : (t - t % 86400000 + 0 * 86400000 + (20 * 60 + 30) * 60000)
        % 86400000 / 3600000 = 20 := by omega
    rw [hday6, hhour20]
    decide
  · -- Friday from 18:00: schedule tomorrow (Saturday) at 20:30
    have hd0 : (6 - t / 86400000 % 7 + 7) % 7 = 1 := by omega
    rw [hd0, if_neg (by omega : ¬ ((1 : Nat) = 0 ∧ 20 ≤ t % 86400000 / 3600000))]
    refine ⟨by omega, ?_⟩
    have hday6 : (t - t % 86400000 + 1 * 86400000 + (20 * 60 + 30) * 60000)
        / 86400000 % 7 = 6 := by omega
    have hhour20 : (t - t % 86400000 + 1 * 86400000 + (20 * 60 + 30) * 60000)
        % 86400000 / 3600000 = 20 := by omega
    rw [hday6, hhour20]
    decide

/-! ## Claims -/

/-- Claim C1, counterexample: a registered worker whose reported status is
`connected` and whose heartbeat is far older than any stale threshold is NOT
reconnected by `healthCheck` — the trigger condition requires status
`unstable`, so the claim's `connected` premise never fires a reconnect. -/
theorem claim_C1_counterexample :
    (⟨.connected, some 0, 0, false⟩ : WorkerState).status = .connected ∧
    STALE_THRESHOLD < 1000000000 - 0 ∧
    healthCheckTriggersReconnect 1000000000 ⟨.connected, some 0, 0, false⟩ = false ∧
    healthCheckStep 1000000000 ⟨.connected, some 0, 0, false⟩ .failure =
      ⟨.connected, some 0, 0, false⟩ := by
  refine ⟨rfl, by norm_num [STALE_THRESHOLD], rfl, rfl⟩

/-- Claim C1 (amended): `healthCheck` triggers a worker's `reconnect` when
the reported status is `unstable` (never for `connected`) and the heartbeat
is older than the 10-minute threshold; starting from a fresh attempt
counter, `MAX_RECONNECT_ATTEMPTS` consecutive reconnect failures accumulate
an attempt count of 5, the next reconnect invocation moves the session to
`manual_reauth_required` without restarting, and `healthCheck` never again
triggers reconnect for a worker in `manual_reauth_required`. -/
theorem claim_C1_unstable_healthcheck_reauth_ceiling
    (now : Nat) (w : WorkerState) (hb : Nat) (o : RestartOutcome)
    (hs : w.status = .unstable) (hh : w.lastHeartbeat = some hb)
    (hstale : STALE_THRESHOLD < now - hb)
    (w0 : WorkerState) (hg : w0.isReconnecting = false)
    (ha : w0.reconnectAttempts = 0) :
    healthCheckStep now w o = reconnect w o ∧
    (∀ now' w' o', w'.status = .connected → healthCheckStep now' w' o' = w') ∧
    (reconnectFailN MAX_RECONNECT_ATTEMPTS w0).reconnectAttempts =
      MAX_RECONNECT_ATTEMPTS ∧
    (∀ o', (reconnect (reconnectFailN MAX_RECONNECT_ATTEMPTS w0) o').status =
      .manual_reauth_required) ∧
    (∀ now' w' o', w'.status = .manual_reauth_required →
      healthCheckStep now' w' o' = w') := by
  have hfail5 : reconnectFailN MAX_RECONNECT_ATTEMPTS w0 =
      { w0 with status := .disconnected, reconnectAttempts := 5,
                isReconnecting := false } := by
    simp only [MAX_RECONNECT_ATTEMPTS, reconnectFailN, reconnect, hg, ha]
    norm_num
  refine ⟨?_, ?_, ?_, ?_, ?_⟩
  · unfold healthCheckStep
    rw [if_pos]
    unfold healthCheckTriggersReconnect
    rw [hh]
    simp [hs, hstale]
  · intro now' w' o' hc
    unfold healthCheckStep healthCheckTriggersReconnect
    cases hhb : w'.lastHeartbeat <;> simp [hc]
  · rw [hfail5]
    rfl
  · intro o'
    rw [hfail5]
    simp only [reconnect, MAX_RECONNECT_ATTEMPTS]
    norm_num
  · intro now' w' o' hm
    unfold healthCheckStep healthCheckTriggersReconnect
    cases hhb : w'.lastHeartbeat <;> simp [hm]

/-- Claim C1 witness: the amended behaviour at a concrete unstable worker
with an 11-minute-old heartbeat and a fresh attempt counter. -/
theorem claim_C1_witness :
    healthCheckStep 660000 ⟨.unstable, some 0, 0, false⟩ .failure =
      reconnect ⟨.unstable, some 0, 0, false⟩ .failure ∧
    (∀ now' w' o', w'.status = .connected → healthCheckStep now' w' o' = w') ∧
    (reconnectFailN MAX_RECONNECT_ATTEMPTS
      ⟨.unstable, some 0, 0, false⟩).reconnectAttempts =
      MAX_RECONNECT_ATTEMPTS ∧
    (∀ o', (reconnect (reconnectFailN MAX_RECONNECT_ATTEMPTS
      ⟨.unstable, some 0, 0, false⟩) o').status = .manual_reauth_required) ∧
    (∀ now' w' o', w'.status = .manual_reauth_required →
      healthCheckStep now' w' o' = w') :=
  claim_C1_unstable_healthcheck_reauth_ceiling 660000
    ⟨.unstable, some 0, 0, false⟩ 0 .failure rfl rfl
    (by norm_num [STALE_THRESHOLD]) ⟨.unstable, some 0, 0, false⟩ rfl rfl

/-- Claim C2, counterexample: a self-authored group message with a
non-empty body arriving through the live `handleMessage` path is persisted
as a `wa_raw_messages` row — the live handler never consults `fromMe`. -/
theorem claim_C2_counterexample :
    (⟨"123@g.us", some "972500000001@c.us", "שלום לכולם", false, "chat",
      true, "m1", 1000⟩ : WAMessage).fromMe = true ∧
    handleMessage
      ⟨"123@g.us", some "972500000001@c.us", "שלום לכולם", false, "chat",
        true, "m1", 1000⟩ (some ⟨"g1", none⟩) =
      some ⟨"g1", "m1", "שלום לכולם", "972500000001@c.us", none⟩ := by
  exact ⟨rfl, by decide⟩

/-- Claim C2 (amended): self-echo suppression exists only on the
historical-scan path — `scanGroupHistory` discards every self-authored
message — while the live `handleMessage` path does not consult the
self-authored flag at all, so a self-authored message is persisted exactly
like any other message. -/
theorem claim_C2_scan_only_self_suppression :
    (∀ (m : WAMessage) (e : Bool) (cap : String) (g : GroupRow),
      m.fromMe = true → scanMessageAction m e cap g = none) ∧
    (∀ (m : WAMessage) (g : Option GroupRow) (b : Bool),
      handleMessage { m with fromMe := b } g = handleMessage m g) := by
  constructor
  · intro m e cap g hm
    simp [scanMessageAction, hm]
  · intro m g b
    cases m
    rfl

/-- Claim C2 witness: the scan path drops a concrete self-authored message. -/
theorem claim_C2_witness :
    scanMessageAction
      ⟨"123@g.us", some "972500000001@c.us", "שלום לכולם", false, "chat",
        true, "m1", 1000⟩ false "" ⟨"g1", none⟩ = none :=
  claim_C2_scan_only_self_suppression.1
    ⟨"123@g.us", some "972500000001@c.us", "שלום לכולם", false, "chat",
      true, "m1", 1000⟩ false "" ⟨"g1", none⟩ rfl

/-- Claim C6: successive reconnect backoff delays strictly increase
(`5000 * 2 ^ (attempt - 1)`, concretely 5 s, 10 s, 20 s, 40 s, 80 s for the
five allowed attempts), and a reconnect whose restart succeeds resets the
attempt counter to zero. -/
theorem claim_C6_backoff_monotone_reset
    (n : Nat) (hn : 1 ≤ n) (w : WorkerState)
    (hg : w.isReconnecting = false)
    (hceil : w.reconnectAttempts + 1 ≤ MAX_RECONNECT_ATTEMPTS) :
    reconnectDelay n < reconnectDelay (n + 1) ∧
    [1, 2, 3, 4, 5].map reconnectDelay = [5000, 10000, 20000, 40000, 80000] ∧
    (reconnect w .success).reconnectAttempts = 0 := by
  refine ⟨?_, by rfl, ?_⟩
  · have h2 : (2 : Nat) ^ (n - 1) < 2 ^ n := by
      exact Nat.pow_lt_pow_right (by norm_num) (by omega)
    simp only [reconnectDelay, RECONNECT_BASE_DELAY, Nat.add_sub_cancel]
    exact mul_lt_mul_of_pos_left h2 (by norm_num)
  · simp only [reconnect, hg, Bool.false_eq_true, if_false]
    rw [if_neg (by omega)]

/-- Claim C6 witness: the backoff and reset facts at attempt 1 and a fresh
unstable worker. -/
theorem claim_C6_witness :
    reconnectDelay 1 < reconnectDelay 2 ∧
    [1, 2, 3, 4, 5].map reconnectDelay = [5000, 10000, 20000, 40000, 80000] ∧
    (reconnect ⟨.unstable, some 0, 0, false⟩ .success).reconnectAttempts = 0 :=
  claim_C6_backoff_monotone_reset 1 (by norm_num)
    ⟨.unstable, some 0, 0, false⟩ rfl (by norm_num [MAX_RECONNECT_ATTEMPTS])

/-- The retry loop makes at most as many transport calls as attempts remain. -/
theorem runAttempts_calls_le (outcome : Nat → Bool) :
    ∀ (attempt rem : Nat), (runAttempts outcome attempt rem).1 ≤ rem := by
  intro attempt rem
  induction rem generalizing attempt with
  | zero => simp [runAttempts]
  | succ n ih =>
    simp only [runAttempts]
    split
    · simp
    · split
      · simp
      · have := ih (attempt + 1)
        simp only []
        omega

/-- Claim C3: an immediate delivery whose every transport attempt fails is
retried exactly `MAX_RETRIES` times with linearly increasing delays
(`RETRY_DELAY_MS * attempt`, i.e. 5 s then 10 s), after which a queue row
recording the message (status `failed`) is written and one in-app
notification is raised; the attempt count never exceeds the ceiling. -/
theorem claim_C3_retry_queue_notify
    (now : Nat) (outcome : Nat → Bool) (userId messageType content : String)
    (relatedItemId : Option String) (hfail : ∀ a, outcome a = false) :
    (sendWithRetry now outcome userId messageType content
        relatedItemId).transportCalls = MAX_RETRIES ∧
    (sendWithRetry now outcome userId messageType content
        relatedItemId).delays = [RETRY_DELAY_MS * 1, RETRY_DELAY_MS * 2] ∧
    List.Chain' (· < ·)
      (sendWithRetry now outcome userId messageType content
        relatedItemId).delays ∧
    (sendWithRetry now outcome userId messageType content
        relatedItemId).journal =
      [queueMessage now userId messageType content relatedItemId "failed"] ∧
    (queueMessage now userId messageType content relatedItemId
        "failed").content = content ∧
    (sendWithRetry now outcome userId messageType content
        relatedItemId).webNotifications = 1 ∧
    (∀ o2 : Nat → Bool,
      (sendWithRetry now o2 userId messageType content
        relatedItemId).transportCalls ≤ MAX_RETRIES) := by
  have hrun : runAttempts outcome 1 3 =
      (3, [RETRY_DELAY_MS * 1, RETRY_DELAY_MS * 2], false) := by
    simp [runAttempts, hfail, RETRY_DELAY_MS]
  refine ⟨?_, ?_, ?_, ?_, rfl, ?_, ?_⟩
  · simp [sendWithRetry, MAX_RETRIES, hrun]
  · simp [sendWithRetry, MAX_RETRIES, hrun]
  · simp [sendWithRetry, MAX_RETRIES, hrun, RETRY_DELAY_MS]
  · simp [sendWithRetry, MAX_RETRIES, hrun]
  · simp [sendWithRetry, MAX_RETRIES, hrun]
  · intro o2
    have h := runAttempts_calls_le o2 1 MAX_RETRIES
    by_cases hb : (runAttempts o2 1 MAX_RETRIES).2.2 = true
    · simp [sendWithRetry, hb, h]
    · simp [sendWithRetry, hb, h]

/-- Claim C3 witness: the failure path at a concrete request whose
transport always fails. -/
theorem claim_C3_witness :
    (sendWithRetry 0 (fun _ => false) "u1" "digest" "hello"
        none).transportCalls = MAX_RETRIES ∧
    (sendWithRetry 0 (fun _ => false) "u1" "digest" "hello"
        none).delays = [RETRY_DELAY_MS * 1, RETRY_DELAY_MS * 2] ∧
    List.Chain' (· < ·)
      (sendWithRetry 0 (fun _ => false) "u1" "digest" "hello" none).delays ∧
    (sendWithRetry 0 (fun _ => false) "u1" "digest" "hello" none).journal =
      [queueMessage 0 "u1" "digest" "hello" none "failed"] ∧
    (queueMessage 0 "u1" "digest" "hello" none "failed").content = "hello" ∧
    (sendWithRetry 0 (fun _ => false) "u1" "digest" "hello"
        none).webNotifications = 1 ∧
    (∀ o2 : Nat → Bool,
      (sendWithRetry 0 o2 "u1" "digest" "hello"
        none).transportCalls ≤ MAX_RETRIES) :=
  claim_C3_retry_queue_notify 0 (fun _ => false) "u1" "digest" "hello" none
    (fun _ => rfl)

/-- Claim C4, counterexample: a daily-digest send requested on Saturday
10:00 — inside the blackout window — for a user whose digest content is
empty (no groups or no items today) makes no transport call but also
creates NO queue entry at all, refuting "a pending queue entry is always
created". -/
theorem claim_C4_counterexample :
    isShabbatOrHoliday (6 * 86400000 + 10 * 3600000) = true ∧
    (sendDailyDigest (6 * 86400000 + 10 * 3600000) none
        (some ⟨some "0501234567", true⟩) (fun _ => false) "u1").journal = [] ∧
    (sendDailyDigest (6 * 86400000 + 10 * 3600000) none
        (some ⟨some "0501234567", true⟩) (fun _ => false)
        "u1").transportCalls = 0 := by
  refine ⟨by decide, rfl, rfl⟩

/-- Claim C4 (amended): a send requested during the blackout window makes
no outbound transport call; an immediate alert always yields a `pending`
queue entry scheduled strictly after the end of the window, and a digest
yields such an entry exactly when digest content was generated (a digest
with nothing to report is dropped without queuing). -/
theorem claim_C4_blackout_deferral
    (now : Nat) (user : Option UserRow) (outcome : Nat → Bool)
    (userId content itemId : String) (digestContent : Option String)
    (hs : isShabbatOrHoliday now = true) :
    ((sendImmediateAlert now user outcome userId content itemId).transportCalls
        = 0 ∧
     ∃ q, (sendImmediateAlert now user outcome userId content itemId).journal
        = [q] ∧
       q.status = "pending" ∧ now < q.scheduledFor ∧
       isShabbatOrHoliday q.scheduledFor = false) ∧
    ((sendDailyDigest now digestContent user outcome userId).transportCalls
        = 0 ∧
     (∀ c, digestContent = some c →
       ∃ q, (sendDailyDigest now digestContent user outcome userId).journal
          = [q] ∧
         q.status = "pending" ∧ now < q.scheduledFor ∧
         isShabbatOrHoliday q.scheduledFor = false) ∧
     (digestContent = none →
       (sendDailyDigest now digestContent user outcome userId).journal = [])) := by
  have hsb : isShabbat now = true := by
    simpa [isShabbatOrHoliday, isHoliday] using hs
  obtain ⟨hlt, hout⟩ := motzaei_after_blackout now hsb
  have hq : ∀ mt c rid, ∃ q,
      [queueMessage now userId mt c rid "pending"] = [q] ∧
      q.status = "pending" ∧ now < q.scheduledFor ∧
      isShabbatOrHoliday q.scheduledFor = false := by
    intro mt c rid
    refine ⟨queueMessage now userId mt c rid "pending", rfl, rfl, ?_, ?_⟩
    · simp [queueMessage, hs, hlt]
    · simp [queueMessage, hs, hsb, isShabbatOrHoliday, isHoliday, hout]
  refine ⟨⟨?_, ?_⟩, ?_, ?_, ?_⟩
  · simp [sendImmediateAlert, hs]
  · simpa [sendImmediateAlert, hs] using hq "alert" content (some itemId)
  · cases digestContent <;> simp [sendDailyDigest, hs, emptyTrace]
  · intro c hc
    subst hc
    simpa [sendDailyDigest, hs] using hq "digest" c none
  · intro hc
    subst hc
    simp [sendDailyDigest, hs, emptyTrace]

/-- Claim C4 witness: the amended deferral at Saturday 10:00 with concrete
alert and digest requests. -/
theorem claim_C4_witness :
    (((sendImmediateAlert (6 * 86400000 + 10 * 3600000)
        (some ⟨some "0501234567", true⟩) (fun _ => false) "u1" "alert text"
        "item-1").transportCalls = 0 ∧
      ∃ q, (sendImmediateAlert (6 * 86400000 + 10 * 3600000)
        (some ⟨some "0501234567", true⟩) (fun _ => false) "u1" "alert text"
        "item-1").journal = [q] ∧
        q.status = "pending" ∧ (6 * 86400000 + 10 * 3600000) < q.scheduledFor ∧
        isShabbatOrHoliday q.scheduledFor = false) ∧
     ((sendDailyDigest (6 * 86400000 + 10 * 3600000) (some "digest text")
        (some ⟨some "0501234567", true⟩) (fun _ => false)
        "u1").transportCalls = 0 ∧
      (∀ c, (some "digest text" : Option String) = some c →
        ∃ q, (sendDailyDigest (6 * 86400000 + 10 * 3600000)
          (some "digest text") (some ⟨some "0501234567", true⟩)
          (fun _ => false) "u1").journal = [q] ∧
          q.status = "pending" ∧
          (6 * 86400000 + 10 * 3600000) < q.scheduledFor ∧
          isShabbatOrHoliday q.scheduledFor = false) ∧
      ((some "digest text" : Option String) = none →
        (sendDailyDigest (6 * 86400000 + 10 * 3600000) (some "digest text")
          (some ⟨some "0501234567", true⟩) (fun _ => false)
          "u1").journal = []))) :=
  claim_C4_blackout_deferral (6 * 86400000 + 10 * 3600000)
    (some ⟨some "0501234567", true⟩) (fun _ => false) "u1" "alert text"
    "item-1" (some "digest text") (by decide)

/-- A queue entry that is not `pending` is left untouched (at its position)
by the queue-drain loop. -/
theorem processQueueGo_preserves_nonpending (now : Nat)
    (uo so : QueueRow → Bool) :
    ∀ (q : List QueueRow) (b i : Nat) (e : QueueRow),
      q.get? i = some e → e.status ≠ "pending" →
      (processQueueGo now uo so q b).1.get? i = some e := by
  intro q
  induction q with
  | nil =>
    intro b i e h _
    simp at h
  | cons x xs ih =>
    intro b i e h hs
    simp only [processQueueGo]
    by_cases hsel : entrySelected now x = true ∧ b ≠ 0
    · rw [if_pos hsel]
      cases i with
      | zero =>
        exfalso
        simp only [List.get?_cons_zero, Option.some.injEq] at h
        have hst : x.status = "pending" := by
          have := hsel.1
          simp only [entrySelected, decide_eq_true_eq] at this
          exact this.1
        exact hs (h ▸ hst)
      | succ j =>
        simp only [List.get?_cons_succ] at h ⊢
        exact ih (b - 1) j e h hs
    · rw [if_neg hsel]
      cases i with
      | zero =>
        simpa using h
      | succ j =>
        simp only [List.get?_cons_succ] at h ⊢
        exact ih b j e h hs

/-- A non-`pending` entry survives one full `processQueue` pass unchanged. -/
theorem processQueue_preserves_nonpending (now : Nat)
    (uo so : QueueRow → Bool) (q : List QueueRow) (i : Nat) (e : QueueRow)
    (h : q.get? i = some e) (hs : e.status ≠ "pending") :
    (processQueue now uo so q).1.get? i = some e := by
  unfold processQueue
  split
  · exact h
  · exact processQueueGo_preserves_nonpending now uo so q QUEUE_BATCH_LIMIT i e h hs

/-- A terminally `failed` entry survives any number of later queue-drain
passes unchanged. -/
theorem processQueuePasses_preserve_failed :
    ∀ (k : Nat) (nows : Nat → Nat) (uos sos : Nat → QueueRow → Bool)
      (q : List QueueRow) (i : Nat) (e : QueueRow),
      q.get? i = some e → e.status = "failed" →
      (processQueuePasses nows uos sos k q).get? i = some e := by
  intro k
  induction k with
  | zero =>
    intro nows uos sos q i e h _
    exact h
  | succ n ih =>
    intro nows uos sos q i e h hf
    simp only [processQueuePasses]
    exact ih _ _ _ _ i e
      (processQueue_preserves_nonpending (nows 0) (uos 0) (sos 0) q i e h
        (by simp [hf])) hf

/-- Claim C5: a pending, due entry whose user gate passes but whose
transport fails with `retryCount` already at `MAX_RETRIES - 1` is
transitioned by `processQueue` to terminal `failed` with one user-visible
web notification; a `failed` entry never matches the selection query of any
pass and is left untouched by any number of later passes. -/
theorem claim_C5_retry_ceiling_terminal
    (now : Nat) (uo so : QueueRow → Bool) (e : QueueRow)
    (hns : isShabbatOrHoliday now = false)
    (hpend : e.status = "pending") (hdue : e.scheduledFor ≤ now)
    (huser : uo e = true) (hsend : so e = false)
    (hrc : MAX_RETRIES ≤ e.retryCount + 1)
    (nows : Nat → Nat) (uos sos : Nat → QueueRow → Bool)
    (q : List QueueRow) (i : Nat) (f : QueueRow)
    (hf : q.get? i = some f) (hfs : f.status = "failed") :
    processQueue now uo so [e] =
      ([{ e with status := "failed", retryCount := e.retryCount + 1 }],
       0, 1) ∧
    (∀ (n' : Nat) (q' : List QueueRow), f ∉ selectBatch n' q') ∧
    (∀ k, (processQueuePasses nows uos sos k q).get? i = some f) := by
  refine ⟨?_, ?_, ?_⟩
  · unfold processQueue
    rw [if_neg (by simp [hns])]
    simp only [processQueueGo, QUEUE_BATCH_LIMIT]
    rw [if_pos ⟨by simp [entrySelected, hpend, hdue], by norm_num⟩]
    simp only [processEntry, huser, hsend]
    rw [if_neg (by simp), if_neg (by simp), if_pos hrc]
    simp
  · intro n' q' hmem
    have h1 : f ∈ q'.filter (entrySelected n') :=
      List.take_subset _ _ hmem
    have h2 := (List.mem_filter.1 h1).2
    simp only [entrySelected, decide_eq_true_eq] at h2
    rw [hfs] at h2
    exact absurd h2.1 (by decide)
  · intro k
    exact processQueuePasses_preserve_failed k nows uos sos q i f hf hfs

/-- Claim C5 witness: a concrete due entry on its third failure becomes
terminally `failed` with a notification, and a concrete failed entry
survives every later pass. -/
theorem claim_C5_witness :
    processQueue 0 (fun _ => true) (fun _ => false)
      [⟨"u1", "alert", "x", 0, "pending", 2, none, none⟩] =
      ([⟨"u1", "alert", "x", 0, "failed", 3, none, none⟩], 0, 1) ∧
    (∀ (n' : Nat) (q' : List QueueRow),
      (⟨"u2", "digest", "y", 0, "failed", 3, none, none⟩ : QueueRow) ∉
        selectBatch n' q') ∧
    (∀ k, (processQueuePasses (fun _ => 0) (fun _ _ => true)
        (fun _ _ => false) k
        [⟨"u2", "digest", "y", 0, "failed", 3, none, none⟩]).get? 0 =
      some ⟨"u2", "digest", "y", 0, "failed", 3, none, none⟩) :=
  claim_C5_retry_ceiling_terminal 0 (fun _ => true) (fun _ => false)
    ⟨"u1", "alert", "x", 0, "pending", 2, none, none⟩ (by decide) rfl
    (by norm_num) rfl rfl (by norm_num [MAX_RETRIES]) (fun _ => 0)
    (fun _ _ => true) (fun _ _ => false)
    [⟨"u2", "digest", "y", 0, "failed", 3, none, none⟩] 0
    ⟨"u2", "digest", "y", 0, "failed", 3, none, none⟩ rfl rfl

/-- `hasKey` agrees with a positive key count. -/
theorem hasKey_iff_count_pos (db : List RawInsert) (g mid : String) :
    hasKey db g mid = true ↔ 0 < rawKeyCount db g mid := by
  rw [hasKey, List.any_eq_true, rawKeyCount]
  constructor
  · rintro ⟨x, hx, hp⟩
    exact List.length_pos.2 fun hnil => by
      have : x ∈ db.filter (rawKeyMatches g mid) := List.mem_filter.2 ⟨hx, hp⟩
      simp [hnil] at this
  · intro hlen
    obtain ⟨x, hx⟩ := List.exists_mem_of_length_pos hlen
    exact ⟨x, (List.mem_filter.1 hx).1, (List.mem_filter.1 hx).2⟩

/-- Inserting a row with a different key leaves a key's count unchanged. -/
theorem rawKeyCount_insert_other (d : List RawInsert) (x : RawInsert)
    (g mid : String) (hx : rawKeyMatches g mid x = false) :
    rawKeyCount (insertRaw d x).1 g mid = rawKeyCount d g mid := by
  unfold insertRaw
  split
  · rfl
  · simp [rawKeyCount, List.filter_append, hx]

/-- First insert of a key into a table without it yields count one. -/
theorem rawKeyCount_insert_first (d : List RawInsert) (x : RawInsert)
    (g mid : String) (hx : rawKeyMatches g mid x = true)
    (h0 : rawKeyCount d g mid = 0) :
    rawKeyCount (insertRaw d x).1 g mid = 1 := by
  obtain ⟨hg, hm⟩ : x.groupId = g ∧ x.waMessageId = mid := by
    simpa [rawKeyMatches] using hx
  have hkey : hasKey d x.groupId x.waMessageId = false := by
    rw [hg, hm]
    cases h : hasKey d g mid
    · rfl
    · have := (hasKey_iff_count_pos d g mid).1 h
      omega
  unfold insertRaw
  rw [hkey]
  simp only [Bool.false_eq_true, if_false]
  unfold rawKeyCount at h0 ⊢
  rw [List.filter_append]
  simp [hx, h0]

/-- Once a key has exactly one row, any further constrained insert keeps it
at exactly one row. -/
theorem rawKeyCount_insert_keeps_one (d : List RawInsert) (x : RawInsert)
    (g mid : String) (h1 : rawKeyCount d g mid = 1) :
    rawKeyCount (insertRaw d x).1 g mid = 1 := by
  cases hx : rawKeyMatches g mid x with
  | false => rw [rawKeyCount_insert_other d x g mid hx, h1]
  | true =>
    obtain ⟨hg, hm⟩ : x.groupId = g ∧ x.waMessageId = mid := by
      simpa [rawKeyMatches] using hx
    have hkey : hasKey d x.groupId x.waMessageId = true := by
      rw [hg, hm]
      exact (hasKey_iff_count_pos d g mid).2 (by omega)
    unfold insertRaw
    rw [hkey]
    simpa using h1

/-- A key with exactly one row keeps exactly one row across any sequence of
constrained inserts. -/
theorem rawKeyCount_foldl_keeps_one (g mid : String) :
    ∀ (ops : List RawInsert) (d : List RawInsert),
      rawKeyCount d g mid = 1 →
      rawKeyCount (ops.foldl (fun a x => (insertRaw a x).1) d) g mid = 1 := by
  intro ops
  induction ops with
  | nil => intro d h1; exact h1
  | cons x xs ih =>
    intro d h1
    exact ih _ (rawKeyCount_insert_keeps_one d x g mid h1)

/-- Claim C7: starting from a table with no row for a
(group, external-message-id) key, any sequence of constrained inserts that
includes at least one row carrying the key — in particular a live ingestion
and a concurrent historical-scan insert of the same message, in either
interleaving — leaves exactly one persisted row for the key; and an insert
whose key already exists is a strict no-op (the table is returned
unchanged and the insert reports failure). -/
theorem claim_C7_dedup_unique (g mid : String) (db ops : List RawInsert)
    (r : RawInsert) (h0 : rawKeyCount db g mid = 0)
    (hr : rawKeyMatches g mid r = true) (hmem : r ∈ ops) :
    rawKeyCount (ops.foldl (fun d x => (insertRaw d x).1) db) g mid = 1 ∧
    (∀ (db' : List RawInsert) (x : RawInsert),
      hasKey db' x.groupId x.waMessageId = true →
      insertRaw db' x = (db', false)) := by
  constructor
  · induction ops generalizing db with
    | nil => simp at hmem
    | cons x xs ih =>
      rcases List.mem_cons.1 hmem with hrx | hrxs
      · subst hrx
        simp only [List.foldl_cons]
        exact rawKeyCount_foldl_keeps_one g mid xs _
          (rawKeyCount_insert_first db r g mid hr h0)
      · cases hx : rawKeyMatches g mid x with
        | true =>
          simp only [List.foldl_cons]
          exact rawKeyCount_foldl_keeps_one g mid xs _
            (rawKeyCount_insert_first db x g mid hx h0)
        | false =>
          simp only [List.foldl_cons]
          exact ih _ (by rw [rawKeyCount_insert_other db x g mid hx]; exact h0)
            hrxs
  · intro db' x hk
    simp [insertRaw, hk]

/-- Claim C7 witness: ingesting the same concrete message twice (live event
plus historical scan) into an empty table persists exactly one row. -/
theorem claim_C7_witness :
    rawKeyCount
      ([⟨"g1", "m1", "hello", "s1", none⟩,
        ⟨"g1", "m1", "hello", "s1", none⟩].foldl
        (fun d x => (insertRaw d x).1) []) "g1" "m1" = 1 ∧
    (∀ (db' : List RawInsert) (x : RawInsert),
      hasKey db' x.groupId x.waMessageId = true →
      insertRaw db' x = (db', false)) :=
  claim_C7_dedup_unique "g1" "m1" [] _ ⟨"g1", "m1", "hello", "s1", none⟩
    rfl (by decide) (List.mem_cons_self _ _)

/-- Claim C8, counterexample: a message whose classification succeeds but
whose `extracted_items` storage write fails is still marked `processed`
(the supabase insert returns an error object instead of throwing, so the
`catch` that would have skipped `markProcessed` never runs), refuting "when
storage fails the message is left unprocessed". -/
theorem claim_C8_counterexample :
    (processMessage "hello world"
        (.ok ⟨"event", 5, false, "s", true, false⟩) false true).processed
      = true ∧
    (processMessage "hello world"
        (.ok ⟨"event", 5, false, "s", true, false⟩) false true).itemSaved
      = false := by
  refine ⟨by decide, by decide⟩

/-- Claim C8 (amended): the `processed` flag is flipped when classification
completes (success or deliberate skip: too-short message, low-urgency
noise) — including when the `extracted_items` storage write fails, since
that failure does not throw; only a classifier-call or response-parse
failure (the thrown exception caught by `processMessage`) leaves the
message unprocessed for retry. -/
theorem claim_C8_processed_flag
    (content : String) (c : Classification) (io ge : Bool)
    (hlen : 5 ≤ content.length) :
    (processMessage content (.error ()) io ge).processed = false ∧
    (processMessage content (.ok c) io ge).processed = true ∧
    (∀ s : String, s.length < 5 →
      ∀ cl, (processMessage s cl io ge).processed = true) := by
  refine ⟨?_, ?_, ?_⟩
  · unfold processMessage
    rw [if_neg (by omega)]
  · unfold processMessage
    rw [if_neg (by omega)]
    dsimp only
    split <;> rfl
  · intro s hs cl
    unfold processMessage
    rw [if_pos hs]

/-- Claim C8 witness: the amended flag behaviour at a concrete message,
classification and failing storage write. -/
theorem claim_C8_witness :
    (processMessage "hello world" (.error ()) false false).processed
      = false ∧
    (processMessage "hello world"
        (.ok ⟨"event", 5, false, "s", true, false⟩) false false).processed
      = true ∧
    (∀ s : String, s.length < 5 →
      ∀ cl, (processMessage s cl false false).processed = true) :=
  claim_C8_processed_flag "hello world" ⟨"event", 5, false, "s", true, false⟩
    false false (by decide)

/-- Claim C9: for a classified message (long enough to be classified, with
the extracted-item insert succeeding and the group lookup resolving), an
immediate-alert record is created and a transport send attempted in the
same pass exactly when the classifier's `send_immediate_alert` flag is set
and the urgency reaches `IMMEDIATE_ALERT_THRESHOLD`. -/
theorem claim_C9_immediate_alert_iff
    (content : String) (c : Classification) (hlen : 5 ≤ content.length) :
    ((processMessage content (.ok c) true true).alertCreated = true ∧
     (processMessage content (.ok c) true true).alertSendAttempted = true) ↔
    (c.sendImmediateAlert = true ∧ IMMEDIATE_ALERT_THRESHOLD ≤ c.urgency) := by
  unfold processMessage
  rw [if_neg (by omega)]
  dsimp only
  by_cases hnoise : c.category = "noise" ∧ c.urgency < 3
  · rw [if_pos hnoise]
    obtain ⟨_, hlt3⟩ := hnoise
    refine iff_of_false (by simp) ?_
    rintro ⟨_, h6⟩
    simp only [IMMEDIATE_ALERT_THRESHOLD] at h6
    omega
  · rw [if_neg hnoise]
    simp [Bool.and_eq_true, decide_eq_true_eq, and_self]

/-- Claim C9 witness: the spec scenario — a parents-meeting message with
urgency 8 and the alert flag set triggers the alert and the send; flipping
the flag or dropping below the threshold suppresses both. -/
theorem claim_C9_witness :
    ((processMessage "פגישת הורים מחר בשעה 18:00"
        (.ok ⟨"schedule_change", 8, true, "פגישת הורים מחר", true, true⟩)
        true true).alertCreated = true ∧
     (processMessage "פגישת הורים מחר בשעה 18:00"
        (.ok ⟨"schedule_change", 8, true, "פגישת הורים מחר", true, true⟩)
        true true).alertSendAttempted = true) ↔
    ((⟨"schedule_change", 8, true, "פגישת הורים מחר", true, true⟩ :
        Classification).sendImmediateAlert = true ∧
     IMMEDIATE_ALERT_THRESHOLD ≤
       (⟨"schedule_change", 8, true, "פגישת הורים מחר", true, true⟩ :
        Classification).urgency) :=
  claim_C9_immediate_alert_iff "פגישת הורים מחר בשעה 18:00"
    ⟨"schedule_change", 8, true, "פגישת הורים מחר", true, true⟩ (by decide)

/-- Claim C10, counterexample: a pending alert for a user whose
`immediate_alerts_enabled` is false but who has NO phone number on file is
skipped untouched (the phone check precedes the settings check), so the
alert is not marked sent, refuting the universal "marks that user's
pending alert as sent". -/
theorem claim_C10_counterexample :
    processPendingAlerts 0
      (fun _ => ⟨none, some ⟨false, "22:00", "07:00"⟩⟩) (fun _ => false)
      [⟨"u1", "alert!", false, none⟩] =
      ([⟨"u1", "alert!", false, none⟩], 0) ∧
    (⟨"u1", "alert!", false, none⟩ : AlertRow).sent = false := by
  refine ⟨by decide, rfl⟩

/-- Claim C10 (amended): provided the user has a phone number on file, a
pending alert whose user has immediate alerts disabled (or no notification
settings at all) is marked sent with a timestamp and no transport call is
made — silently consumed — whereas a pending alert inside quiet hours is
left completely untouched; a phone-less user's alert is also left
untouched. -/
theorem claim_C10_disabled_alerts_consumed
    (now : Nat) (u u2 u3 : AlertUser) (p p2 : String)
    (s2 : NotificationSettings) (a : AlertRow)
    (hp : u.phone = some p)
    (hdis : (match u.settings with
             | some s => s.immediateAlertsEnabled
             | none => false) = false)
    (hsent : a.sent = false)
    (hp2 : u2.phone = some p2) (hs2 : u2.settings = some s2)
    (hen : s2.immediateAlertsEnabled = true)
    (hq : isWithinQuietHours (minutesOfDay now) s2.quietHoursStart
      s2.quietHoursEnd = true)
    (hp3 : u3.phone = none) :
    (∀ so, processPendingAlerts now (fun _ => u) so [a] =
      ([{ a with sent := true, sentAt := some now }], 0)) ∧
    (∀ so, processPendingAlerts now (fun _ => u2) so [a] = ([a], 0)) ∧
    (∀ so, processPendingAlerts now (fun _ => u3) so [a] = ([a], 0)) := by
  refine ⟨?_, ?_, ?_⟩
  · intro so
    simp only [processPendingAlerts, processPendingAlertsGo, ALERT_BATCH_LIMIT]
    rw [if_pos ⟨hsent, by norm_num⟩]
    simp only [processAlert, hp]
    cases hset : u.settings with
    | none => simp
    | some s =>
      have hdis' : s.immediateAlertsEnabled = false := by
        simpa [hset] using hdis
      simp [hdis']
  · intro so
    simp only [processPendingAlerts, processPendingAlertsGo, ALERT_BATCH_LIMIT]
    rw [if_pos ⟨hsent, by norm_num⟩]
    simp only [processAlert, hp2, hs2]
    rw [if_neg (by simp [hen]), if_pos hq]
  · intro so
    simp only [processPendingAlerts, processPendingAlertsGo, ALERT_BATCH_LIMIT]
    rw [if_pos ⟨hsent, by norm_num⟩]
    simp [processAlert, hp3]

/-- Claim C10 witness: the amended behaviour at concrete users — disabled
alerts with a phone (consumed), quiet hours (untouched), and no phone
(untouched). -/
theorem claim_C10_witness :
    (∀ so, processPendingAlerts 0
      (fun _ => ⟨some "0501234567", some ⟨false, "22:00", "07:00"⟩⟩) so
      [⟨"u1", "alert!", false, none⟩] =
      ([⟨"u1", "alert!", true, some 0⟩], 0)) ∧
    (∀ so, processPendingAlerts 0
      (fun _ => ⟨some "0501234567", some ⟨true, "23:00", "07:00"⟩⟩) so
      [⟨"u1", "alert!", false, none⟩] =
      ([⟨"u1", "alert!", false, none⟩], 0)) ∧
    (∀ so, processPendingAlerts 0
      (fun _ => ⟨none, some ⟨true, "22:00", "07:00"⟩⟩) so
      [⟨"u1", "alert!", false, none⟩] =
      ([⟨"u1", "alert!", false, none⟩], 0)) :=
  claim_C10_disabled_alerts_consumed 0
    ⟨some "0501234567", some ⟨false, "22:00", "07:00"⟩⟩
    ⟨some "0501234567", some ⟨true, "23:00", "07:00"⟩⟩
    ⟨none, some ⟨true, "22:00", "07:00"⟩⟩ "0501234567" "0501234567"
    ⟨true, "23:00", "07:00"⟩ ⟨"u1", "alert!", false, none⟩ rfl rfl rfl rfl
    rfl rfl (by decide) rfl

end ParentAgent
